import Mathlib

/-!
Shallow embedding of the medical-gas engineering engine of
`src/services/medicalGasEngineering.ts` (class `MedicalGasEngineering`).

Conventions of the embedding:
* JavaScript numbers are modelled as exact rationals (`ℚ`); `Math.round` is
  Mathlib's `round` (round half towards +∞, as in JS), `Math.ceil` is `Int.ceil`,
  `Math.abs` is `abs`.
* `Math.PI` is modelled as the exact rational value of the float64 constant
  `3.141592653589793`, which is what the JS code actually multiplies with.
* JS object literals become structures; the `Map<string, MedicalGasSystem>`
  keyed by the five gas-type strings (in insertion order oxygen, air, vacuum,
  co2, n2o) becomes an association list `List (GasType × MedicalGasSystem)`
  in the same order.
* The presentational string fields `requirement` and `notes` of
  `ComplianceCheck` are template literals rendering measured values
  (`toFixed`); they are display-only, and no computation reads them back, so
  they are omitted from the embedded `ComplianceCheck`.
* `calculatePressureDrop` (Darcy-Weisbach via the Swamee-Jain closed form)
  uses `Math.log10` and fractional `Math.pow`, which have no exact rational
  meaning; it is passed as an explicit function argument `dpFn` to
  `calculatePipeSizing`, which is the only caller.  No claim constrains the
  numeric value of a pressure drop produced by it.
-/

namespace MedGas

/-- Gas-type enumeration of `MedicalGasOutlet.type`
(`'oxygen' | 'air' | 'vacuum' | 'co2' | 'n2o' | 'nitrogen' | 'argon'`). -/
inductive GasType : Type
  | oxygen | air | vacuum | co2 | n2o | nitrogen | argon
deriving DecidableEq, Repr

/-- Room pressurization mode (`'positive' | 'negative' | 'neutral'`). -/
inductive Pressurization : Type
  | positive | negative | neutral
deriving DecidableEq, Repr

/-- Redundancy level (`'single' | 'dual' | 'triple'`). -/
inductive RedundancyLevel : Type
  | single | dual | triple
deriving DecidableEq, Repr

/-- Compliance status (`'compliant' | 'non_compliant' | 'warning'`). -/
inductive Status : Type
  | compliant | non_compliant | warning
deriving DecidableEq, Repr

/-- Install location metadata of an outlet. -/
structure OutletLocation where
  room : String
  wallLocation : String
  heightFromFloor : ℚ
deriving DecidableEq, Repr

/-- Interface `MedicalGasOutlet`. -/
structure MedicalGasOutlet where
  type : GasType
  quantity : ℚ
  flowRate : ℚ
  pressure : ℚ
  simultaneousFactor : ℚ
  backupRequired : Bool
  location : OutletLocation
deriving DecidableEq, Repr

/-- Interface `RoomGasRequirements`. -/
structure RoomGasRequirements where
  roomId : String
  roomName : String
  roomType : String
  area : ℚ
  ceilingHeight : ℚ
  outlets : List MedicalGasOutlet
  pressurization : Pressurization
  airChangesPerHour : ℚ
  filtrationLevel : String
  specialRequirements : List String
deriving DecidableEq, Repr

/-- Alarm set points inside `SystemPressureRequirements`. -/
structure AlarmSetPoints where
  highPressure : ℚ
  lowPressure : ℚ
  switchover : ℚ
deriving DecidableEq, Repr

/-- Interface `SystemPressureRequirements`. -/
structure SystemPressureRequirements where
  operatingPressure : ℚ
  alarmSetPoints : AlarmSetPoints
  backupCapacity : ℚ
  redundancyLevel : RedundancyLevel
deriving DecidableEq, Repr

/-- Interface `PipeCalculation`.  The `material` field keeps the string the
function was called with, as the source casts it unchecked. -/
structure PipeCalculation where
  diameter : ℚ
  length : ℚ
  material : String
  pressureDrop : ℚ
  velocity : ℚ
  flowRate : ℚ
  roughness : ℚ
deriving DecidableEq, Repr

/-- Interface `ComplianceCheck` (presentational `requirement`/`notes` string
fields omitted, see the header comment). -/
structure ComplianceCheck where
  standard : String
  status : Status
deriving DecidableEq, Repr

/-- Distribution block of `MedicalGasSystem`. -/
structure Distribution where
  mainLines : List PipeCalculation
  branchLines : List PipeCalculation
  totalLength : ℚ
  totalPressureDrop : ℚ
deriving DecidableEq, Repr

/-- Equipment block of `MedicalGasSystem`. -/
structure Equipment where
  primarySupply : String
  backupSupply : String
  manifolds : ℤ
  regulators : ℤ
  alarms : List String
deriving DecidableEq, Repr

/-- Interface `MedicalGasSystem`.  `estimatedCost` is an integer because it is
only ever `0` or the result of `Math.round`. -/
structure MedicalGasSystem where
  gasType : GasType
  totalDemand : ℚ
  peakDemand : ℚ
  systemPressure : SystemPressureRequirements
  distribution : Distribution
  equipment : Equipment
  compliance : List ComplianceCheck
  estimatedCost : ℤ
deriving DecidableEq, Repr

/-- Per-gas-type record of the `NFPA99_STANDARDS` table. -/
structure GasStandards where
  operatingPressure : ℚ
  lowPressureAlarm : ℚ
  highPressureAlarm : ℚ
  maxVelocity : ℚ
  simultaneousFactor : ℚ
deriving DecidableEq, Repr

/-- The `NFPA99_STANDARDS` table; `none` for gas types without an entry
(nitrogen, argon). -/
def NFPA99_STANDARDS : GasType → Option GasStandards
  | .oxygen => some
    { operatingPressure := 50
      lowPressureAlarm := 45
      highPressureAlarm := 55
      maxVelocity := 25
      simultaneousFactor := 0.75 }
  | .air => some
    { operatingPressure := 50
      lowPressureAlarm := 45
      highPressureAlarm := 55
      maxVelocity := 25
      simultaneousFactor := 0.75 }
  | .vacuum => some
    { operatingPressure := -15
      lowPressureAlarm := -12
      highPressureAlarm := -18
      maxVelocity := 5000
      simultaneousFactor := 0.50 }
  | .n2o => some
    { operatingPressure := 50
      lowPressureAlarm := 45
      highPressureAlarm := 55
      maxVelocity := 25
      simultaneousFactor := 0.25 }
  | .co2 => some
    { operatingPressure := 50
      lowPressureAlarm := 45
      highPressureAlarm := 55
      maxVelocity := 25
      simultaneousFactor := 0.25 }
  | .nitrogen => none
  | .argon => none

/-- The `PIPE_ROUGHNESS` table, keyed by material string. -/
def PIPE_ROUGHNESS : String → Option ℚ := fun material =>
  if material = "copper" then some 0.000005
  else if material = "stainless_steel" then some 0.000015
  else if material = "chrome_moly" then some 0.000045
  else none

/-- The `FLOW_RATES.oxygen` catalog (standard flow rates per outlet, SCFM). -/
def OXYGEN_FLOW_RATES : String → Option ℚ := fun roomType =>
  if roomType = "Operating Room" then some 15
  else if roomType = "ICU" then some 8
  else if roomType = "Emergency Room" then some 12
  else if roomType = "Recovery Room" then some 6
  else if roomType = "Patient Room" then some 4
  else if roomType = "NICU" then some 10
  else none

/-- The `FLOW_RATES.air` catalog. -/
def AIR_FLOW_RATES : String → Option ℚ := fun roomType =>
  if roomType = "Operating Room" then some 12
  else if roomType = "ICU" then some 6
  else if roomType = "Emergency Room" then some 10
  else if roomType = "Recovery Room" then some 5
  else if roomType = "Patient Room" then some 3
  else if roomType = "NICU" then some 8
  else none

/-- The `FLOW_RATES.vacuum` catalog. -/
def VACUUM_FLOW_RATES : String → Option ℚ := fun roomType =>
  if roomType = "Operating Room" then some 8
  else if roomType = "ICU" then some 5
  else if roomType = "Emergency Room" then some 6
  else if roomType = "Recovery Room" then some 3
  else if roomType = "Patient Room" then some 2
  else if roomType = "NICU" then some 4
  else none

/-- The two-level `FLOW_RATES` table: gas types other than oxygen, air and
vacuum have no catalog. -/
def FLOW_RATES : GasType → Option (String → Option ℚ)
  | .oxygen => some OXYGEN_FLOW_RATES
  | .air => some AIR_FLOW_RATES
  | .vacuum => some VACUUM_FLOW_RATES
  | _ => none

/-- Method `getBaseFlowRate`: look the room type up in the gas type's catalog,
defaulting to 5 SCFM both for an unknown room type (`|| 5`) and for a gas type
without a catalog. -/
def getBaseFlowRate (gasType : GasType) (roomType : String) : ℚ :=
  match FLOW_RATES gasType with
  | some flowRates => (flowRates roomType).getD 5
  | none => 5

/-- Return value of `calculateRoomDemand`. -/
structure RoomDemand where
  totalDemand : ℚ
  peakDemand : ℚ
  pressure : ℚ
deriving DecidableEq, Repr

/-- Method `calculateRoomDemand`: demand of one outlet spec of one room. -/
def calculateRoomDemand (room : RoomGasRequirements) (outlet : MedicalGasOutlet) :
    RoomDemand :=
  let baseFlowRate := getBaseFlowRate outlet.type room.roomType
  let totalDemand := outlet.quantity * baseFlowRate
  let peakDemand := totalDemand * outlet.simultaneousFactor
  { totalDemand := totalDemand, peakDemand := peakDemand, pressure := outlet.pressure }

/-- Contribution of one room's outlets of gas type `g` to that gas type's
running `totalDemand` (the inner `forEach` of `calculateSystemDemand`). -/
def roomGasTotal (g : GasType) (room : RoomGasRequirements) : ℚ :=
  ((room.outlets.filter (fun o => o.type = g)).map
    (fun o => (calculateRoomDemand room o).totalDemand)).sum

/-- Contribution of one room's outlets of gas type `g` to that gas type's
running (pre-overwrite) `peakDemand`. -/
def roomGasPeak (g : GasType) (room : RoomGasRequirements) : ℚ :=
  ((room.outlets.filter (fun o => o.type = g)).map
    (fun o => (calculateRoomDemand room o).peakDemand)).sum

/-- Value of `system.totalDemand` after the accumulation loop of
`calculateSystemDemand`: the loop walks rooms and outlets and adds each
outlet's room demand to the system of the outlet's gas type, which per gas
type amounts to this sum. -/
def gasTotalDemand (rooms : List RoomGasRequirements) (g : GasType) : ℚ :=
  (rooms.map (roomGasTotal g)).sum

/-- Value of `system.peakDemand` after the accumulation loop (before the
simultaneous-use-factor overwrite). -/
def gasPeakAccum (rooms : List RoomGasRequirements) (g : GasType) : ℚ :=
  (rooms.map (roomGasPeak g)).sum

/-- Method `getSystemPressureRequirements`. -/
def getSystemPressureRequirements (gasType : GasType) : SystemPressureRequirements :=
  match NFPA99_STANDARDS gasType with
  | none =>
    { operatingPressure := 50,
      alarmSetPoints := { highPressure := 55, lowPressure := 45, switchover := 42 },
      backupCapacity := 100, redundancyLevel := .dual }
  | some standards =>
    { operatingPressure := |standards.operatingPressure|,
      alarmSetPoints :=
        { highPressure := |standards.highPressureAlarm|,
          lowPressure := |standards.lowPressureAlarm|,
          switchover := |standards.lowPressureAlarm| - 3 },
      backupCapacity := 100, redundancyLevel := .dual }

/-- Method `getPrimarySupplyRecommendation`. -/
def getPrimarySupplyRecommendation (gasType : GasType) (demand : ℚ) : String :=
  match gasType with
  | .oxygen =>
    if demand > 200 then "Liquid oxygen bulk tank (1500+ gallon)"
    else if demand > 50 then "Liquid oxygen bulk tank (500-1500 gallon)"
    else "High-pressure cylinder manifold (6-12 cylinders)"
  | .air =>
    if demand > 100 then "Dual rotary screw compressors with dryers"
    else if demand > 25 then "Single rotary screw compressor with backup"
    else "Reciprocating compressor with backup"
  | .vacuum =>
    if demand > 60 then "Dual liquid ring vacuum pumps"
    else if demand > 20 then "Single liquid ring with backup rotary vane"
    else "Rotary vane vacuum pumps (duplex)"
  | _ => "High-pressure cylinder manifold"

/-- Method `getBackupSupplyRecommendation` (ignores its demand argument). -/
def getBackupSupplyRecommendation (gasType : GasType) (_demand : ℚ) : String :=
  match gasType with
  | .oxygen => "High-pressure cylinder manifold (automatic switchover)"
  | .air => "Secondary compressor with automatic start"
  | .vacuum => "Secondary vacuum pump with automatic start"
  | _ => "Secondary cylinder manifold"

/-- The fixed alarm feature list assigned by `calculateEquipmentRequirements`. -/
def ALARM_FEATURES : List String :=
  ["Master alarm panel", "Local pressure switches", "Automatic switchover",
   "Remote monitoring capability"]

/-- Method `calculateEquipmentRequirements` (source mutates `system.equipment`
in place; modelled as returning the updated system). -/
def calculateEquipmentRequirements (system : MedicalGasSystem) : MedicalGasSystem :=
  { system with equipment :=
    { primarySupply := getPrimarySupplyRecommendation system.gasType system.peakDemand,
      backupSupply := getBackupSupplyRecommendation system.gasType system.peakDemand,
      manifolds := if system.peakDemand > 100 then 2 else 1,
      regulators := ⌈system.peakDemand / 50⌉,
      alarms := ALARM_FEATURES } }

/-- The pressure-drop compliance check pushed by `performComplianceChecks`
(NFPA 99-2021 Section 5.1.3.6): `warning` when the total distribution pressure
drop exceeds 5 PSI, `compliant` otherwise. -/
def pressureDropCheck (system : MedicalGasSystem) : ComplianceCheck :=
  if system.distribution.totalPressureDrop > 5 then
    { standard := "NFPA 99-2021 Section 5.1.3.6", status := .warning }
  else
    { standard := "NFPA 99-2021 Section 5.1.3.6", status := .compliant }

/-- Method `performComplianceChecks`.  The first check is only pushed when the
gas type has a standards entry; truthiness of `backupSupply` is emptiness of
the string. -/
def performComplianceChecks (system : MedicalGasSystem) (gasType : GasType) :
    List ComplianceCheck :=
  let pressureChecks : List ComplianceCheck :=
    match NFPA99_STANDARDS gasType with
    | some standards =>
      [{ standard := "NFPA 99-2021 Section 5.1.3.2",
         status :=
           if abs (system.systemPressure.operatingPressure -
               |standards.operatingPressure|) ≤ 5
           then .compliant else .non_compliant }]
    | none => []
  pressureChecks ++
    [{ standard := "NFPA 99-2021 Section 5.1.11",
       status := if system.equipment.backupSupply ≠ "" then .compliant else .non_compliant },
     { standard := "NFPA 99-2021 Section 5.1.12",
       status := if system.equipment.alarms.length ≥ 3 then .compliant else .warning },
     pressureDropCheck system]

/-- Tier record of the `baseCosts` table in `calculateSystemCost`. -/
structure CostTiers where
  low : ℚ
  medium : ℚ
  high : ℚ
deriving DecidableEq, Repr

/-- The `baseCosts` table of `calculateSystemCost`; `none` for gas types
without an entry. -/
def baseCosts : GasType → Option CostTiers
  | .oxygen => some { low := 25000, medium := 75000, high := 200000 }
  | .air => some { low := 35000, medium := 85000, high := 250000 }
  | .vacuum => some { low := 30000, medium := 80000, high := 220000 }
  | .co2 => some { low := 15000, medium := 40000, high := 100000 }
  | .n2o => some { low := 20000, medium := 50000, high := 120000 }
  | _ => none

/-- Running total `cost` of `calculateSystemCost` just before the redundancy
multiplier is applied: base tier cost + piping + manifolds + regulators +
alarm features. -/
def preMultiplierCost (system : MedicalGasSystem) : ℚ :=
  let base : ℚ :=
    match baseCosts system.gasType with
    | some tiers =>
      if system.peakDemand > 200 then tiers.high
      else if system.peakDemand > 50 then tiers.medium
      else tiers.low
    | none => 0
  base + system.distribution.totalLength * 150
    + (system.equipment.manifolds : ℚ) * 15000
    + (system.equipment.regulators : ℚ) * 2500
    + (system.equipment.alarms.length : ℚ) * 5000

/-- The `redundancyMultipliers` record of `calculateSystemCost`. -/
def redundancyMultiplier : RedundancyLevel → ℚ
  | .single => 1.0
  | .dual => 1.4
  | .triple => 1.8

/-- Method `calculateSystemCost`: multiply the running total by the redundancy
multiplier and round to the nearest whole unit (`Math.round`). -/
def calculateSystemCost (system : MedicalGasSystem) : ℤ :=
  round (preMultiplierCost system *
    redundancyMultiplier system.systemPressure.redundancyLevel)

/-- The system a gas type is initialized with at the top of
`calculateSystemDemand`. -/
def initialSystem (g : GasType) : MedicalGasSystem :=
  { gasType := g, totalDemand := 0, peakDemand := 0,
    systemPressure := getSystemPressureRequirements g,
    distribution := { mainLines := [], branchLines := [], totalLength := 0,
                      totalPressureDrop := 0 },
    equipment := { primarySupply := "", backupSupply := "", manifolds := 0,
                   regulators := 0, alarms := [] },
    compliance := [], estimatedCost := 0 }

/-- One gas type's entry of the map returned by `calculateSystemDemand`:
accumulate demand over all rooms, overwrite `peakDemand` with
`totalDemand × simultaneousFactor` when the gas type has a standards entry,
then fill equipment, compliance and cost. -/
def buildSystem (rooms : List RoomGasRequirements) (g : GasType) : MedicalGasSystem :=
  let accumulated := { initialSystem g with
    totalDemand := gasTotalDemand rooms g,
    peakDemand := gasPeakAccum rooms g }
  let adjusted :=
    match NFPA99_STANDARDS g with
    | some standards =>
      { accumulated with
        peakDemand := accumulated.totalDemand * standards.simultaneousFactor }
    | none => accumulated
  let equipped := calculateEquipmentRequirements adjusted
  let checked := { equipped with compliance := performComplianceChecks equipped g }
  { checked with estimatedCost := calculateSystemCost checked }

/-- The five gas types the systems map is initialized with, in insertion
order. -/
def systemGasTypes : List GasType := [.oxygen, .air, .vacuum, .co2, .n2o]

/-- Method `calculateSystemDemand`: the systems map, as an association list in
insertion order. -/
def calculateSystemDemand (rooms : List RoomGasRequirements) :
    List (GasType × MedicalGasSystem) :=
  systemGasTypes.map (fun g => (g, buildSystem rooms g))

/-- String key of a gas type, as used for the systems map and interpolated
into recommendation strings. -/
def gasTypeName : GasType → String
  | .oxygen => "oxygen"
  | .air => "air"
  | .vacuum => "vacuum"
  | .co2 => "co2"
  | .n2o => "n2o"
  | .nitrogen => "nitrogen"
  | .argon => "argon"

/-- Recommendations contributed by one system in `generateEngineeringReport`. -/
def systemRecommendations (gasType : GasType) (system : MedicalGasSystem) :
    List String :=
  (if system.distribution.totalPressureDrop > 3 then
    ["Consider larger pipe sizes for " ++ gasTypeName gasType ++
      " system to reduce pressure drop"]
  else []) ++
  (if system.peakDemand > system.totalDemand * 0.9 then
    ["High simultaneous use factor for " ++ gasTypeName gasType ++
      " - consider increasing backup capacity"]
  else []) ++
  (let nonCompliantChecks :=
    system.compliance.filter (fun c => c.status = Status.non_compliant)
   if nonCompliantChecks.length > 0 then
    ["Address " ++ toString nonCompliantChecks.length ++
      " compliance issues for " ++ gasTypeName gasType ++ " system"]
   else [])

/-- The `summary` object of `generateEngineeringReport`.  `complianceScore` is
an `Option`: in JS, dividing by a zero check count would give `NaN`
("undefined" score); that case is modelled as `none`. -/
structure Summary where
  totalRooms : ℕ
  totalOutlets : ℚ
  totalSystemCost : ℤ
  gasTypesRequired : List GasType
  complianceScore : Option ℚ
  recommendationCount : ℕ
deriving DecidableEq, Repr

/-- Return value of `generateEngineeringReport`. -/
structure EngineeringReport where
  summary : Summary
  systems : List (GasType × MedicalGasSystem)
  recommendations : List String
  compliance : List ComplianceCheck
deriving DecidableEq, Repr

/-- Method `generateEngineeringReport`. -/
def generateEngineeringReport (rooms : List RoomGasRequirements) :
    EngineeringReport :=
  let systems := calculateSystemDemand rooms
  let allCompliance := (systems.map (fun p => p.2.compliance)).flatten
  let recommendations :=
    (systems.map (fun p => systemRecommendations p.1 p.2)).flatten
  let totalCost := (systems.map (fun p => p.2.estimatedCost)).sum
  let totalOutlets :=
    (rooms.map (fun room => (room.outlets.map (fun o => o.quantity)).sum)).sum
  { summary :=
      { totalRooms := rooms.length
        totalOutlets := totalOutlets
        totalSystemCost := totalCost
        gasTypesRequired := systems.map (fun p => p.1)
        complianceScore :=
          if allCompliance.length = 0 then none
          else some
            (((allCompliance.filter
                (fun c => c.status = Status.compliant)).length : ℚ) /
              (allCompliance.length : ℚ) * 100)
        recommendationCount := recommendations.length }
    systems := systems
    recommendations := recommendations
    compliance := allCompliance }

/-- The `standardSizes` list of `calculatePipeSizing` (inches, ascending). -/
def standardSizes : List ℚ := [0.5, 0.75, 1, 1.25, 1.5, 2, 2.5, 3, 4, 6, 8]

/-- Exact rational value of the float64 constant `Math.PI`. -/
def MATH_PI : ℚ := 3.141592653589793

/-- Cross-sectional area (sq ft) of a pipe of the given diameter (inches). -/
def pipeArea (diameter : ℚ) : ℚ := MATH_PI * (diameter / 12 / 2) ^ 2

/-- Velocity (ft/sec) through a pipe: `(flowRate / 60) / area`. -/
def pipeVelocity (flowRate diameter : ℚ) : ℚ :=
  flowRate / 60 / pipeArea diameter

/-- The inner `maxVelocity` closure of `calculatePipeSizing`: vacuum's ft/min
ceiling converted to ft/sec, 25 ft/sec for every other gas.  The source only
ever invokes it with the literal `'oxygen'`. -/
def maxVelocityLimit (gasType : String) : ℚ :=
  if gasType = "vacuum" then 5000 / 60 else 25

/-- Method `calculatePipeSizing`.  `dpFn` stands for the private
`calculatePressureDrop` (flowRate, diameter, length, roughness, velocity ↦
pressure drop), whose log10/fractional-power arithmetic has no exact rational
embedding; no claim constrains its value. -/
def calculatePipeSizing (dpFn : ℚ → ℚ → ℚ → ℚ → ℚ → ℚ)
    (flowRate pressure length : ℚ) (material : String) : PipeCalculation :=
  let roughness := (PIPE_ROUGHNESS material).getD 0.000015
  match standardSizes.find?
      (fun d => pipeVelocity flowRate d ≤ maxVelocityLimit "oxygen") with
  | some diameter =>
    let velocity := pipeVelocity flowRate diameter
    { diameter := diameter
      length := length
      material := material
      pressureDrop := dpFn flowRate diameter length roughness velocity
      velocity := velocity
      flowRate := flowRate
      roughness := roughness }
  | none =>
    let diameter : ℚ := 8
    let velocity := pipeVelocity flowRate diameter
    { diameter := diameter
      length := length
      material := material
      pressureDrop := dpFn flowRate diameter length roughness velocity
      velocity := velocity
      flowRate := flowRate
      roughness := roughness }

/-- Outlet with its `simultaneousFactor` field cleared.  Two outlet values are
identical except possibly in `simultaneousFactor` iff their scrubs are equal. -/
def scrubOutlet (o : MedicalGasOutlet) : MedicalGasOutlet :=
  { o with simultaneousFactor := 0 }

/-- Room with every outlet's `simultaneousFactor` cleared. -/
def scrubRoom (room : RoomGasRequirements) : RoomGasRequirements :=
  { room with outlets := room.outlets.map scrubOutlet }

/-- Room list with every outlet's `simultaneousFactor` cleared. -/
def scrubRooms (rooms : List RoomGasRequirements) : List RoomGasRequirements :=
  rooms.map scrubRoom

/-- System with only its redundancy level replaced (all other inputs held
fixed). -/
def setRedundancy (system : MedicalGasSystem) (level : RedundancyLevel) :
    MedicalGasSystem :=
  { system with systemPressure :=
    { system.systemPressure with redundancyLevel := level } }

/-- Sample outlet location for concrete test inputs. -/
def sampleLocation : OutletLocation :=
  { room := "OR-1", wallLocation := "north", heightFromFloor := 60 }

/-- Sample operating room with oxygen and air outlets. -/
def sampleRoom : RoomGasRequirements :=
  { roomId := "R1"
    roomName := "OR 1"
    roomType := "Operating Room"
    area := 600
    ceilingHeight := 10
    outlets :=
      [{ type := .oxygen, quantity := 6, flowRate := 15, pressure := 50,
         simultaneousFactor := 1, backupRequired := true,
         location := sampleLocation },
       { type := .air, quantity := 4, flowRate := 12, pressure := 50,
         simultaneousFactor := 1, backupRequired := true,
         location := sampleLocation }]
    pressurization := .positive
    airChangesPerHour := 20
    filtrationLevel := "HEPA"
    specialRequirements := [] }

/-- Sample facility: one operating room. -/
def sampleRooms : List RoomGasRequirements := [sampleRoom]

/-- Room carrying a negative outlet quantity and a negative area. -/
def negativeRoom : RoomGasRequirements :=
  { roomId := "R9"
    roomName := "Bad Room"
    roomType := "Operating Room"
    area := -100
    ceilingHeight := 10
    outlets :=
      [{ type := .oxygen, quantity := -2, flowRate := 15, pressure := 50,
         simultaneousFactor := 1, backupRequired := true,
         location := sampleLocation }]
    pressurization := .positive
    airChangesPerHour := 20
    filtrationLevel := "HEPA"
    specialRequirements := [] }

/-- Facility containing the invalid room. -/
def negativeRooms : List RoomGasRequirements := [negativeRoom]

/-- Room whose room-type string is in no flow-rate catalog. -/
def unknownRoom : RoomGasRequirements :=
  { roomId := "R7"
    roomName := "Hyperbaric Suite 1"
    roomType := "Hyperbaric Suite"
    area := 300
    ceilingHeight := 10
    outlets :=
      [{ type := .oxygen, quantity := 3, flowRate := 0, pressure := 50,
         simultaneousFactor := 1, backupRequired := true,
         location := sampleLocation }]
    pressurization := .positive
    airChangesPerHour := 12
    filtrationLevel := "HEPA"
    specialRequirements := [] }

/-- Oxygen outlet of `unknownRoom`. -/
def unknownOutlet : MedicalGasOutlet :=
  { type := .oxygen, quantity := 3, flowRate := 0, pressure := 50,
    simultaneousFactor := 1, backupRequired := true,
    location := sampleLocation }

/-- Sample synthesized system for exercising the cost model. -/
def sampleSystem : MedicalGasSystem :=
  { gasType := .oxygen
    totalDemand := 120
    peakDemand := 90
    systemPressure := getSystemPressureRequirements .oxygen
    distribution := { mainLines := [], branchLines := [], totalLength := 40,
                      totalPressureDrop := 2 }
    equipment := { primarySupply := "Liquid oxygen bulk tank (500-1500 gallon)"
                   backupSupply := "High-pressure cylinder manifold (automatic switchover)"
                   manifolds := 1
                   regulators := 2
                   alarms := ALARM_FEATURES }
    compliance := []
    estimatedCost := 0 }

/-- Room identical to `scrubDemoRoomB` except for the outlet's
`simultaneousFactor`. -/
def scrubDemoRoomA : RoomGasRequirements :=
  { roomId := "R2"
    roomName := "ICU 1"
    roomType := "ICU"
    area := 250
    ceilingHeight := 9
    outlets :=
      [{ type := .oxygen, quantity := 6, flowRate := 8, pressure := 50,
         simultaneousFactor := 0.9, backupRequired := true,
         location := sampleLocation }]
    pressurization := .positive
    airChangesPerHour := 6
    filtrationLevel := "HEPA"
    specialRequirements := [] }

/-- Room identical to `scrubDemoRoomA` except for the outlet's
`simultaneousFactor`. -/
def scrubDemoRoomB : RoomGasRequirements :=
  { roomId := "R2"
    roomName := "ICU 1"
    roomType := "ICU"
    area := 250
    ceilingHeight := 9
    outlets :=
      [{ type := .oxygen, quantity := 6, flowRate := 8, pressure := 50,
         simultaneousFactor := 0.1, backupRequired := true,
         location := sampleLocation }]
    pressurization := .positive
    airChangesPerHour := 6
    filtrationLevel := "HEPA"
    specialRequirements := [] }

/-! Helper lemmas about the embedded engine. -/

theorem calculateRoomDemand_totalDemand (room : RoomGasRequirements)
    (outlet : MedicalGasOutlet) :
    (calculateRoomDemand room outlet).totalDemand =
      outlet.quantity * getBaseFlowRate outlet.type room.roomType := rfl

theorem calculateRoomDemand_peakDemand (room : RoomGasRequirements)
    (outlet : MedicalGasOutlet) :
    (calculateRoomDemand room outlet).peakDemand =
      outlet.quantity * getBaseFlowRate outlet.type room.roomType *
        outlet.simultaneousFactor := rfl

theorem getBaseFlowRate_pos (g : GasType) (roomType : String) :
    0 < getBaseFlowRate g roomType := by
  cases g <;>
    simp only [getBaseFlowRate, FLOW_RATES, OXYGEN_FLOW_RATES, AIR_FLOW_RATES,
      VACUUM_FLOW_RATES] <;>
    (try split_ifs) <;> simp

theorem gasTotalDemand_nonneg (rooms : List RoomGasRequirements) (g : GasType)
    (hq : ∀ room ∈ rooms, ∀ o ∈ room.outlets, 0 ≤ o.quantity) :
    0 ≤ gasTotalDemand rooms g := by
  apply List.sum_nonneg
  intro x hx
  obtain ⟨room, hroom, rfl⟩ := List.mem_map.mp hx
  apply List.sum_nonneg
  intro y hy
  obtain ⟨o, ho, rfl⟩ := List.mem_map.mp hy
  have ho' : o ∈ room.outlets := (List.mem_filter.mp ho).1
  rw [calculateRoomDemand_totalDemand]
  exact mul_nonneg (hq room hroom o ho') (getBaseFlowRate_pos o.type room.roomType).le

theorem simultaneousFactor_le_one (g : GasType) (st : GasStandards)
    (hst : NFPA99_STANDARDS g = some st) : st.simultaneousFactor ≤ 1 := by
  cases g <;> simp only [NFPA99_STANDARDS, Option.some.injEq,
    reduceCtorEq] at hst <;> first
  | exact absurd hst not_false
  | (subst hst; norm_num)

theorem lookup_calculateSystemDemand (rooms : List RoomGasRequirements)
    (g : GasType) (st : GasStandards) (hst : NFPA99_STANDARDS g = some st) :
    (calculateSystemDemand rooms).lookup g = some (buildSystem rooms g) := by
  cases g <;> first
  | rfl
  | simp only [NFPA99_STANDARDS, reduceCtorEq] at hst

theorem buildSystem_totalDemand (rooms : List RoomGasRequirements)
    (g : GasType) (st : GasStandards) (hst : NFPA99_STANDARDS g = some st) :
    (buildSystem rooms g).totalDemand = gasTotalDemand rooms g := by
  simp [buildSystem, calculateEquipmentRequirements, hst]

theorem buildSystem_peakDemand (rooms : List RoomGasRequirements)
    (g : GasType) (st : GasStandards) (hst : NFPA99_STANDARDS g = some st) :
    (buildSystem rooms g).peakDemand =
      gasTotalDemand rooms g * st.simultaneousFactor := by
  simp [buildSystem, calculateEquipmentRequirements, hst]

theorem buildSystem_distribution (rooms : List RoomGasRequirements)
    (g : GasType) :
    (buildSystem rooms g).distribution =
      { mainLines := [], branchLines := [], totalLength := 0,
        totalPressureDrop := 0 } := by
  cases h : NFPA99_STANDARDS g <;>
    simp [buildSystem, calculateEquipmentRequirements, h, initialSystem]

theorem buildSystem_compliance_eq (rooms : List RoomGasRequirements)
    (g : GasType) (st : GasStandards) (hst : NFPA99_STANDARDS g = some st) :
    (buildSystem rooms g).compliance =
      [{ standard := "NFPA 99-2021 Section 5.1.3.2", status := .compliant },
       { standard := "NFPA 99-2021 Section 5.1.11", status := .compliant },
       { standard := "NFPA 99-2021 Section 5.1.12", status := .compliant },
       { standard := "NFPA 99-2021 Section 5.1.3.6", status := .compliant }] := by
  cases g <;> simp only [NFPA99_STANDARDS, reduceCtorEq] at hst <;>
    simp [buildSystem, NFPA99_STANDARDS, calculateEquipmentRequirements,
      performComplianceChecks, pressureDropCheck, getSystemPressureRequirements,
      getBackupSupplyRecommendation, ALARM_FEATURES, initialSystem]

theorem buildSystem_equipment_fields (rooms : List RoomGasRequirements)
    (g : GasType) (st : GasStandards) (hst : NFPA99_STANDARDS g = some st) :
    (buildSystem rooms g).equipment.alarms = ALARM_FEATURES ∧
    (buildSystem rooms g).equipment.backupSupply ≠ "" ∧
    (buildSystem rooms g).systemPressure.operatingPressure =
      |st.operatingPressure| := by
  cases g <;>
    simp only [NFPA99_STANDARDS, Option.some.injEq, reduceCtorEq] at hst <;>
    subst hst <;>
    simp [buildSystem, NFPA99_STANDARDS, calculateEquipmentRequirements,
      getSystemPressureRequirements, getBackupSupplyRecommendation,
      ALARM_FEATURES, initialSystem]

theorem round_lt_round_of_add_one_le (x y : ℚ) (h : x + 1 ≤ y) :
    round x < round y := by
  rw [round_eq, round_eq]
  have h3 : ⌊x + 1/2 + 1⌋ ≤ ⌊y + 1/2⌋ := Int.floor_le_floor (by linarith)
  rw [Int.floor_add_one] at h3
  omega

theorem find?_sorted_min (p : ℚ → Bool) (l : List ℚ)
    (hs : l.Sorted (· ≤ ·)) (d : ℚ) (hd : l.find? p = some d) :
    ∀ x ∈ l, p x → d ≤ x := by
  induction l with
  | nil => simp at hd
  | cons a t ih =>
    rw [List.sorted_cons] at hs
    intro x hx hpx
    by_cases ha : p a
    · rw [List.find?_cons_of_pos _ ha] at hd
      obtain rfl : a = d := by injection hd
      rcases List.mem_cons.mp hx with rfl | hx'
      · exact le_refl x
      · exact hs.1 x hx'
    · rw [List.find?_cons_of_neg _ ha] at hd
      rcases List.mem_cons.mp hx with rfl | hx'
      · exact absurd hpx ha
      · exact ih hs.2 hd x hx' hpx

theorem standardSizes_sorted : standardSizes.Sorted (· ≤ ·) := by
  norm_num [standardSizes, List.sorted_cons]

/-! Claim theorems. -/

/-- C1: for every room list with non-negative outlet quantities and each gas
type with a standards entry (exactly the five system gas types),
`calculateSystemDemand` yields a system whose peak demand equals its total
demand times that gas type's simultaneous-use factor from `NFPA99_STANDARDS`
(oxygen/air 0.75, vacuum 0.50, n2o/co2 0.25); consequently peak demand never
exceeds total demand. -/
theorem calculateSystemDemand_peak_eq_total_mul_factor
    (rooms : List RoomGasRequirements)
    (hq : ∀ room ∈ rooms, ∀ o ∈ room.outlets, 0 ≤ o.quantity)
    (g : GasType) (st : GasStandards) (hst : NFPA99_STANDARDS g = some st) :
    (calculateSystemDemand rooms).lookup g = some (buildSystem rooms g) ∧
    (buildSystem rooms g).peakDemand =
      (buildSystem rooms g).totalDemand * st.simultaneousFactor ∧
    (buildSystem rooms g).peakDemand ≤ (buildSystem rooms g).totalDemand ∧
    (NFPA99_STANDARDS .oxygen).map (fun s => s.simultaneousFactor) = some 0.75 ∧
    (NFPA99_STANDARDS .air).map (fun s => s.simultaneousFactor) = some 0.75 ∧
    (NFPA99_STANDARDS .vacuum).map (fun s => s.simultaneousFactor) = some 0.50 ∧
    (NFPA99_STANDARDS .n2o).map (fun s => s.simultaneousFactor) = some 0.25 ∧
    (NFPA99_STANDARDS .co2).map (fun s => s.simultaneousFactor) = some 0.25 := by
  refine ⟨lookup_calculateSystemDemand rooms g st hst, ?_, ?_, rfl, rfl, rfl,
    rfl, rfl⟩
  · rw [buildSystem_peakDemand rooms g st hst,
      buildSystem_totalDemand rooms g st hst]
  · rw [buildSystem_peakDemand rooms g st hst,
      buildSystem_totalDemand rooms g st hst]
    exact mul_le_of_le_one_right (gasTotalDemand_nonneg rooms g hq)
      (simultaneousFactor_le_one g st hst)

/-- Witness for C1: the sample facility, oxygen system. -/
theorem calculateSystemDemand_peak_eq_total_mul_factor_witness :
    (calculateSystemDemand sampleRooms).lookup GasType.oxygen =
      some (buildSystem sampleRooms GasType.oxygen) ∧
    (buildSystem sampleRooms GasType.oxygen).peakDemand =
      (buildSystem sampleRooms GasType.oxygen).totalDemand * (0.75 : ℚ) ∧
    (buildSystem sampleRooms GasType.oxygen).peakDemand ≤
      (buildSystem sampleRooms GasType.oxygen).totalDemand ∧
    (NFPA99_STANDARDS .oxygen).map (fun s => s.simultaneousFactor) = some 0.75 ∧
    (NFPA99_STANDARDS .air).map (fun s => s.simultaneousFactor) = some 0.75 ∧
    (NFPA99_STANDARDS .vacuum).map (fun s => s.simultaneousFactor) = some 0.50 ∧
    (NFPA99_STANDARDS .n2o).map (fun s => s.simultaneousFactor) = some 0.25 ∧
    (NFPA99_STANDARDS .co2).map (fun s => s.simultaneousFactor) = some 0.25 :=
  calculateSystemDemand_peak_eq_total_mul_factor sampleRooms (by decide)
    GasType.oxygen ⟨50, 45, 55, 25, 0.75⟩ rfl

/-- C2: `calculatePipeSizing` walks the fixed ascending standard-size list and
returns the smallest diameter whose velocity does not exceed the velocity
ceiling used by the source (the inner `maxVelocity` closure invoked at
`'oxygen'`, i.e. 25 ft/sec; the closure maps `'vacuum'` to its ft/min ceiling
converted to ft/sec); if no standard size qualifies it returns the largest
size, 8 inches, with that size's true, ceiling-exceeding velocity.  The
returned diameter is always a member of the standard-size list and the
returned velocity is recomputable from the same area/velocity formula. -/
theorem calculatePipeSizing_spec (dpFn : ℚ → ℚ → ℚ → ℚ → ℚ → ℚ)
    (flowRate pressure length : ℚ) (material : String) :
    (calculatePipeSizing dpFn flowRate pressure length material).diameter ∈
      standardSizes ∧
    (calculatePipeSizing dpFn flowRate pressure length material).velocity =
      pipeVelocity flowRate
        (calculatePipeSizing dpFn flowRate pressure length material).diameter ∧
    maxVelocityLimit "oxygen" = 25 ∧
    maxVelocityLimit "vacuum" = 5000 / 60 ∧
    ((pipeVelocity flowRate
        (calculatePipeSizing dpFn flowRate pressure length material).diameter ≤
          maxVelocityLimit "oxygen" ∧
      ∀ d ∈ standardSizes,
        pipeVelocity flowRate d ≤ maxVelocityLimit "oxygen" →
          (calculatePipeSizing dpFn flowRate pressure length material).diameter
            ≤ d) ∨
     ((calculatePipeSizing dpFn flowRate pressure length material).diameter = 8
        ∧
      ∀ d ∈ standardSizes,
        ¬ pipeVelocity flowRate d ≤ maxVelocityLimit "oxygen")) := by
  cases hfind : standardSizes.find?
      (fun d => pipeVelocity flowRate d ≤ maxVelocityLimit "oxygen") with
  | some diameter =>
    have hdiam :
        (calculatePipeSizing dpFn flowRate pressure length material).diameter =
          diameter := by
      simp only [calculatePipeSizing, hfind]
    have hvel :
        (calculatePipeSizing dpFn flowRate pressure length material).velocity =
          pipeVelocity flowRate diameter := by
      simp only [calculatePipeSizing, hfind]
    refine ⟨?_, ?_, rfl, rfl, Or.inl ⟨?_, ?_⟩⟩
    · rw [hdiam]; exact List.mem_of_find?_eq_some hfind
    · rw [hvel, hdiam]
    · rw [hdiam]
      simpa using List.find?_some hfind
    · intro d hd hle
      rw [hdiam]
      exact find?_sorted_min _ _ standardSizes_sorted diameter hfind d hd
        (by simpa using hle)
  | none =>
    have hdiam :
        (calculatePipeSizing dpFn flowRate pressure length material).diameter =
          8 := by
      simp only [calculatePipeSizing, hfind]
    have hvel :
        (calculatePipeSizing dpFn flowRate pressure length material).velocity =
          pipeVelocity flowRate 8 := by
      simp only [calculatePipeSizing, hfind]
    have hall := List.find?_eq_none.mp hfind
    refine ⟨?_, ?_, rfl, rfl, Or.inr ⟨hdiam, ?_⟩⟩
    · rw [hdiam]; norm_num [standardSizes]
    · rw [hvel, hdiam]
    · intro d hd
      simpa using hall d hd

/-- Witness for C2: a concrete sizing run (100 SCFM, 50 PSI, 10 ft, copper,
trivial pressure-drop function). -/
theorem calculatePipeSizing_spec_witness :
    (calculatePipeSizing (fun _ _ _ _ _ => 0) 100 50 10 "copper").diameter ∈
      standardSizes ∧
    (calculatePipeSizing (fun _ _ _ _ _ => 0) 100 50 10 "copper").velocity =
      pipeVelocity 100
        (calculatePipeSizing (fun _ _ _ _ _ => 0) 100 50 10 "copper").diameter ∧
    maxVelocityLimit "oxygen" = 25 ∧
    maxVelocityLimit "vacuum" = 5000 / 60 ∧
    ((pipeVelocity 100
        (calculatePipeSizing (fun _ _ _ _ _ => 0) 100 50 10 "copper").diameter ≤
          maxVelocityLimit "oxygen" ∧
      ∀ d ∈ standardSizes,
        pipeVelocity 100 d ≤ maxVelocityLimit "oxygen" →
          (calculatePipeSizing (fun _ _ _ _ _ => 0) 100 50 10 "copper").diameter
            ≤ d) ∨
     ((calculatePipeSizing (fun _ _ _ _ _ => 0) 100 50 10 "copper").diameter = 8
        ∧
      ∀ d ∈ standardSizes,
        ¬ pipeVelocity 100 d ≤ maxVelocityLimit "oxygen")) :=
  calculatePipeSizing_spec (fun _ _ _ _ _ => 0) 100 50 10 "copper"

/-- C3 counterexample: on a facility whose room has a negative outlet quantity
(and a negative area), `calculateSystemDemand` does not fail — it returns an
oxygen system whose total demand is the silently coerced negative value
`-2 × 15 = -30`. -/
theorem negative_quantity_silently_computed :
    ((calculateSystemDemand negativeRooms).lookup GasType.oxygen).map
      (fun s => s.totalDemand) = some (-30) := by
  rw [lookup_calculateSystemDemand negativeRooms GasType.oxygen
      ⟨50, 45, 55, 25, 0.75⟩ rfl, Option.map_some',
    buildSystem_totalDemand negativeRooms GasType.oxygen
      ⟨50, 45, 55, 25, 0.75⟩ rfl]
  simp [gasTotalDemand, roomGasTotal, negativeRooms, negativeRoom,
    calculateRoomDemand, getBaseFlowRate, FLOW_RATES, OXYGEN_FLOW_RATES,
    List.filter]
  try norm_num

/-- C3 amended: demand aggregation performs no input validation at all — for
every room list, rooms with negative quantities or areas included, each gas
type with a standards entry gets a normally computed system whose total
demand is the plain accumulated sum (negative contributions included). -/
theorem calculateSystemDemand_never_fails (rooms : List RoomGasRequirements)
    (g : GasType) (st : GasStandards) (hst : NFPA99_STANDARDS g = some st) :
    (calculateSystemDemand rooms).lookup g = some (buildSystem rooms g) ∧
    (buildSystem rooms g).totalDemand = gasTotalDemand rooms g :=
  ⟨lookup_calculateSystemDemand rooms g st hst,
   buildSystem_totalDemand rooms g st hst⟩

/-- Witness for the amended C3: the invalid facility still gets its oxygen
system. -/
theorem calculateSystemDemand_never_fails_witness :
    (calculateSystemDemand negativeRooms).lookup GasType.oxygen =
      some (buildSystem negativeRooms GasType.oxygen) ∧
    (buildSystem negativeRooms GasType.oxygen).totalDemand =
      gasTotalDemand negativeRooms GasType.oxygen :=
  calculateSystemDemand_never_fails negativeRooms GasType.oxygen
    ⟨50, 45, 55, 25, 0.75⟩ rfl

/-- C4 counterexample: in the report for the sample facility the oxygen system
has total demand 90 (non-zero), yet its distribution contains no
`PipeCalculation` at all — `generateEngineeringReport` never ran the pipe
sizer. -/
theorem report_has_no_pipe_calculations :
    ((generateEngineeringReport sampleRooms).systems.lookup GasType.oxygen).map
      (fun s => (s.distribution.mainLines, s.distribution.branchLines,
        s.totalDemand)) = some ([], [], 90) := by
  have hsys : (generateEngineeringReport sampleRooms).systems =
      calculateSystemDemand sampleRooms := rfl
  rw [hsys, lookup_calculateSystemDemand sampleRooms GasType.oxygen
      ⟨50, 45, 55, 25, 0.75⟩ rfl, Option.map_some']
  rw [buildSystem_distribution, buildSystem_totalDemand sampleRooms
    GasType.oxygen ⟨50, 45, 55, 25, 0.75⟩ rfl]
  simp [gasTotalDemand, roomGasTotal, sampleRooms, sampleRoom,
    calculateRoomDemand, getBaseFlowRate, FLOW_RATES, OXYGEN_FLOW_RATES,
    List.filter]
  try norm_num

/-- C4 amended: `generateEngineeringReport` never invokes the pipe sizer: in
every report, each system's distribution has empty main-line and branch-line
lists, and its `totalLength` and `totalPressureDrop` (both 0) do equal the
sums over those (empty) pipe-calculation lists. -/
theorem report_distribution_always_empty (rooms : List RoomGasRequirements) :
    ((generateEngineeringReport rooms).systems.all fun p =>
      p.2.distribution.mainLines.isEmpty &&
      p.2.distribution.branchLines.isEmpty &&
      decide (p.2.distribution.totalLength =
        ((p.2.distribution.mainLines ++ p.2.distribution.branchLines).map
          (fun c => c.length)).sum) &&
      decide (p.2.distribution.totalPressureDrop =
        ((p.2.distribution.mainLines ++ p.2.distribution.branchLines).map
          (fun c => c.pressureDrop)).sum)) = true := by
  have h : ∀ g, (buildSystem rooms g).distribution =
      { mainLines := [], branchLines := [], totalLength := 0,
        totalPressureDrop := 0 } := buildSystem_distribution rooms
  simp [generateEngineeringReport, calculateSystemDemand, systemGasTypes,
    List.all, h]

/-- C6: the total-pressure-drop compliance check is a strict two-way split —
`compliant` when the distribution's total pressure drop is ≤ 5 PSI, `warning`
when it exceeds 5 PSI, and never `non_compliant`; the check is one of the
checks emitted by `performComplianceChecks` for every system. -/
theorem pressureDropCheck_two_way (system : MedicalGasSystem) (g : GasType) :
    (pressureDropCheck system).status =
      (if system.distribution.totalPressureDrop ≤ 5 then Status.compliant
       else Status.warning) ∧
    (pressureDropCheck system).status ≠ Status.non_compliant ∧
    pressureDropCheck system ∈ performComplianceChecks system g := by
  refine ⟨?_, ?_, ?_⟩
  · simp only [pressureDropCheck]
    split_ifs with h1 h2 <;> first | rfl | (exfalso; linarith)
  · simp only [pressureDropCheck]
    split_ifs <;> simp
  · simp [performComplianceChecks]

/-- C7: when the room-type string is absent from the flow-rate catalog of the
outlet's gas type, `getBaseFlowRate` falls back to the fixed default of
5 SCFM and `calculateRoomDemand` still produces a normal result: demand =
quantity × 5. -/
theorem unknown_roomType_uses_default (room : RoomGasRequirements)
    (outlet : MedicalGasOutlet)
    (h : (FLOW_RATES outlet.type).bind (fun f => f room.roomType) = none) :
    getBaseFlowRate outlet.type room.roomType = 5 ∧
    (calculateRoomDemand room outlet).totalDemand = outlet.quantity * 5 := by
  have hg : getBaseFlowRate outlet.type room.roomType = 5 := by
    unfold getBaseFlowRate
    cases hf : FLOW_RATES outlet.type with
    | none => rfl
    | some f =>
      rw [hf] at h
      simp only [Option.some_bind] at h
      simp [h]
  exact ⟨hg, by rw [calculateRoomDemand_totalDemand, hg]⟩

/-- Witness for C7: a room typed "Hyperbaric Suite", unknown to the catalog. -/
theorem unknown_roomType_uses_default_witness :
    getBaseFlowRate unknownOutlet.type unknownRoom.roomType = 5 ∧
    (calculateRoomDemand unknownRoom unknownOutlet).totalDemand =
      unknownOutlet.quantity * 5 :=
  unknown_roomType_uses_default unknownRoom unknownOutlet rfl

/-- C8: holding a system fixed and moving only the redundancy level
single → dual → triple, the estimated cost strictly increases: the
multipliers 1.0, 1.4, 1.8 are applied to a positive (indeed ≥ 15000)
pre-multiplier cost, provided the system's length/equipment counts are
non-negative and its gas type has a base-cost tier (which the source's type
guarantees). -/
theorem cost_strictly_increases_with_redundancy (system : MedicalGasSystem)
    (hgas : (baseCosts system.gasType).isSome = true)
    (hlen : 0 ≤ system.distribution.totalLength)
    (hman : 0 ≤ system.equipment.manifolds)
    (hreg : 0 ≤ system.equipment.regulators) :
    0 < preMultiplierCost system ∧
    calculateSystemCost (setRedundancy system .single) <
      calculateSystemCost (setRedundancy system .dual) ∧
    calculateSystemCost (setRedundancy system .dual) <
      calculateSystemCost (setRedundancy system .triple) := by
  obtain ⟨tiers, ht⟩ := Option.isSome_iff_exists.mp hgas
  have htiers : 15000 ≤ tiers.low ∧ 15000 ≤ tiers.medium ∧ 15000 ≤ tiers.high := by
    cases hsg : system.gasType <;> rw [hsg] at ht <;>
      simp only [baseCosts, Option.some.injEq, reduceCtorEq] at ht <;>
      first
      | exact absurd ht not_false
      | (subst ht; refine ⟨by norm_num, by norm_num, by norm_num⟩)
  have hpre : 15000 ≤ preMultiplierCost system := by
    unfold preMultiplierCost
    rw [ht]
    dsimp only
    have h1 : 0 ≤ system.distribution.totalLength * 150 :=
      mul_nonneg hlen (by norm_num)
    have h2 : 0 ≤ (system.equipment.manifolds : ℚ) * 15000 :=
      mul_nonneg (by exact_mod_cast hman) (by norm_num)
    have h3 : 0 ≤ (system.equipment.regulators : ℚ) * 2500 :=
      mul_nonneg (by exact_mod_cast hreg) (by norm_num)
    have h4 : 0 ≤ (system.equipment.alarms.length : ℚ) * 5000 :=
      mul_nonneg (Nat.cast_nonneg _) (by norm_num)
    split_ifs <;> linarith [htiers.1, htiers.2.1, htiers.2.2]
  have hcost : ∀ r, calculateSystemCost (setRedundancy system r) =
      round (preMultiplierCost system * redundancyMultiplier r) := fun r => rfl
  refine ⟨by linarith, ?_, ?_⟩
  · rw [hcost .single, hcost .dual]
    apply round_lt_round_of_add_one_le
    have : redundancyMultiplier .single = 1 ∧ redundancyMultiplier .dual = 7/5 := by
      norm_num [redundancyMultiplier]
    rw [this.1, this.2]
    linarith
  · rw [hcost .dual, hcost .triple]
    apply round_lt_round_of_add_one_le
    have : redundancyMultiplier .dual = 7/5 ∧ redundancyMultiplier .triple = 9/5 := by
      norm_num [redundancyMultiplier]
    rw [this.1, this.2]
    linarith

/-- Witness for C8: the sample oxygen system. -/
theorem cost_strictly_increases_with_redundancy_witness :
    0 < preMultiplierCost sampleSystem ∧
    calculateSystemCost (setRedundancy sampleSystem .single) <
      calculateSystemCost (setRedundancy sampleSystem .dual) ∧
    calculateSystemCost (setRedundancy sampleSystem .dual) <
      calculateSystemCost (setRedundancy sampleSystem .triple) :=
  cost_strictly_increases_with_redundancy sampleSystem rfl (by decide)
    (by decide) (by decide)

theorem allCompliance_const (rooms : List RoomGasRequirements) :
    ((calculateSystemDemand rooms).map (fun p => p.2.compliance)).flatten =
      (List.replicate 5
        [{ standard := "NFPA 99-2021 Section 5.1.3.2", status := Status.compliant },
         { standard := "NFPA 99-2021 Section 5.1.11", status := Status.compliant },
         { standard := "NFPA 99-2021 Section 5.1.12", status := Status.compliant },
         { standard := "NFPA 99-2021 Section 5.1.3.6", status := Status.compliant }]).flatten := by
  have ho := buildSystem_compliance_eq rooms .oxygen ⟨50, 45, 55, 25, 0.75⟩ rfl
  have ha := buildSystem_compliance_eq rooms .air ⟨50, 45, 55, 25, 0.75⟩ rfl
  have hv := buildSystem_compliance_eq rooms .vacuum
    ⟨-15, -12, -18, 5000, 0.50⟩ rfl
  have hc := buildSystem_compliance_eq rooms .co2 ⟨50, 45, 55, 25, 0.25⟩ rfl
  have hn := buildSystem_compliance_eq rooms .n2o ⟨50, 45, 55, 25, 0.25⟩ rfl
  simp [calculateSystemDemand, systemGasTypes, ho, ha, hv, hc, hn,
    List.replicate]

theorem report_compliance_const (rooms : List RoomGasRequirements) :
    (generateEngineeringReport rooms).compliance =
      (List.replicate 5
        [{ standard := "NFPA 99-2021 Section 5.1.3.2", status := Status.compliant },
         { standard := "NFPA 99-2021 Section 5.1.11", status := Status.compliant },
         { standard := "NFPA 99-2021 Section 5.1.12", status := Status.compliant },
         { standard := "NFPA 99-2021 Section 5.1.3.6", status := Status.compliant }]).flatten := by
  simp only [generateEngineeringReport]
  exact allCompliance_const rooms

theorem report_score_100 (rooms : List RoomGasRequirements) :
    (generateEngineeringReport rooms).summary.complianceScore = some 100 := by
  have h := allCompliance_const rooms
  simp only [generateEngineeringReport]
  rw [h]
  simp [List.replicate, List.filter]

/-- C5 counterexample: for the zero-room facility the compliance score is not
empty/undefined — it is the well-defined value 100 (there are 20 checks for
the five gas systems, so the denominator is 20, not 0). -/
theorem empty_facility_score_defined :
    (generateEngineeringReport []).summary.complianceScore = some 100 ∧
    (generateEngineeringReport []).summary.complianceScore ≠ none := by
  refine ⟨report_score_100 [], ?_⟩
  rw [report_score_100 []]
  exact Option.some_ne_none _

/-- C5 amended: a facility with zero rooms yields a report with every gas
type's total and peak demand zero and no `PipeCalculation`s; the compliance
score is not empty/undefined but the well-defined value 100 (20 checks, all
compliant — no division by zero occurs because the check list is never
empty). -/
theorem empty_facility_report :
    ((generateEngineeringReport []).systems.all fun p =>
        decide (p.2.totalDemand = 0) && decide (p.2.peakDemand = 0) &&
        p.2.distribution.mainLines.isEmpty &&
        p.2.distribution.branchLines.isEmpty) = true ∧
    (generateEngineeringReport []).summary.complianceScore = some 100 ∧
    (generateEngineeringReport []).compliance.length = 20 := by
  refine ⟨?_, report_score_100 [], ?_⟩
  · have h1 := buildSystem_totalDemand [] .oxygen ⟨50, 45, 55, 25, 0.75⟩ rfl
    have h2 := buildSystem_totalDemand [] .air ⟨50, 45, 55, 25, 0.75⟩ rfl
    have h3 := buildSystem_totalDemand [] .vacuum
      ⟨-15, -12, -18, 5000, 0.50⟩ rfl
    have h4 := buildSystem_totalDemand [] .co2 ⟨50, 45, 55, 25, 0.25⟩ rfl
    have h5 := buildSystem_totalDemand [] .n2o ⟨50, 45, 55, 25, 0.25⟩ rfl
    have p1 := buildSystem_peakDemand [] .oxygen ⟨50, 45, 55, 25, 0.75⟩ rfl
    have p2 := buildSystem_peakDemand [] .air ⟨50, 45, 55, 25, 0.75⟩ rfl
    have p3 := buildSystem_peakDemand [] .vacuum
      ⟨-15, -12, -18, 5000, 0.50⟩ rfl
    have p4 := buildSystem_peakDemand [] .co2 ⟨50, 45, 55, 25, 0.25⟩ rfl
    have p5 := buildSystem_peakDemand [] .n2o ⟨50, 45, 55, 25, 0.25⟩ rfl
    simp [generateEngineeringReport, calculateSystemDemand, systemGasTypes,
      buildSystem_distribution, h1, h2, h3, h4, h5, p1, p2, p3, p4, p5,
      gasTotalDemand]
  · rw [report_compliance_const []]
    rfl

/-- C10: for every input room list the pipeline's compliance checks all come
out `compliant` and the report's compliance score is always 100; for each
system-gas type, the alarm list has the fixed four features, the backup
supply recommendation is a non-empty string, the distribution pressure drop
is within the 5 PSI ceiling, and the operating pressure is copied verbatim
from the standards table the tolerance check compares against. -/
theorem pipeline_always_compliant (rooms : List RoomGasRequirements)
    (g : GasType) (st : GasStandards) (hst : NFPA99_STANDARDS g = some st) :
    ((generateEngineeringReport rooms).compliance.all
        fun c => c.status == Status.compliant) = true ∧
    (generateEngineeringReport rooms).summary.complianceScore = some 100 ∧
    (buildSystem rooms g).equipment.alarms.length = 4 ∧
    (buildSystem rooms g).equipment.backupSupply ≠ "" ∧
    (buildSystem rooms g).distribution.totalPressureDrop ≤ 5 ∧
    (buildSystem rooms g).systemPressure.operatingPressure =
      |st.operatingPressure| ∧
    ((buildSystem rooms g).compliance.all
        fun c => c.status == Status.compliant) = true := by
  obtain ⟨halarm, hbackup, hop⟩ := buildSystem_equipment_fields rooms g st hst
  refine ⟨?_, report_score_100 rooms, ?_, hbackup, ?_, hop, ?_⟩
  · rw [report_compliance_const rooms]
    rfl
  · rw [halarm]
    rfl
  · rw [buildSystem_distribution]
    norm_num
  · rw [buildSystem_compliance_eq rooms g st hst]
    rfl

/-- Witness for C10: the sample facility, vacuum system. -/
theorem pipeline_always_compliant_witness :
    ((generateEngineeringReport sampleRooms).compliance.all
        fun c => c.status == Status.compliant) = true ∧
    (generateEngineeringReport sampleRooms).summary.complianceScore =
      some 100 ∧
    (buildSystem sampleRooms GasType.vacuum).equipment.alarms.length = 4 ∧
    (buildSystem sampleRooms GasType.vacuum).equipment.backupSupply ≠ "" ∧
    (buildSystem sampleRooms GasType.vacuum).distribution.totalPressureDrop
      ≤ 5 ∧
    (buildSystem sampleRooms GasType.vacuum).systemPressure.operatingPressure =
      |(-15 : ℚ)| ∧
    ((buildSystem sampleRooms GasType.vacuum).compliance.all
        fun c => c.status == Status.compliant) = true :=
  pipeline_always_compliant sampleRooms GasType.vacuum
    ⟨-15, -12, -18, 5000, 0.50⟩ rfl

theorem scrub_filter_sum (g : GasType) (rt : String)
    (os : List MedicalGasOutlet) :
    (((os.map scrubOutlet).filter (fun o => o.type = g)).map
      (fun o => o.quantity * getBaseFlowRate o.type rt)).sum =
    ((os.filter (fun o => o.type = g)).map
      (fun o => o.quantity * getBaseFlowRate o.type rt)).sum := by
  induction os with
  | nil => rfl
  | cons o t ih =>
    by_cases hc : o.type = g
    · simp [List.filter_cons, scrubOutlet, hc, ih]
    · simp [List.filter_cons, scrubOutlet, hc, ih]

theorem roomGasTotal_scrub (g : GasType) (room : RoomGasRequirements) :
    roomGasTotal g (scrubRoom room) = roomGasTotal g room := by
  unfold roomGasTotal scrubRoom
  simp only [calculateRoomDemand_totalDemand]
  simpa using scrub_filter_sum g room.roomType room.outlets

theorem gasTotalDemand_scrub (rooms : List RoomGasRequirements)
    (g : GasType) :
    gasTotalDemand (scrubRooms rooms) g = gasTotalDemand rooms g := by
  unfold gasTotalDemand scrubRooms
  rw [List.map_map]
  simp only [Function.comp_def, roomGasTotal_scrub]

theorem buildSystem_scrub (rooms : List RoomGasRequirements) (g : GasType)
    (st : GasStandards) (hst : NFPA99_STANDARDS g = some st) :
    buildSystem (scrubRooms rooms) g = buildSystem rooms g := by
  simp [buildSystem, hst, gasTotalDemand_scrub]

theorem outletQuantitySum_scrub (rooms : List RoomGasRequirements) :
    (scrubRooms rooms).map
        (fun room => (room.outlets.map (fun o => o.quantity)).sum) =
      rooms.map (fun room => (room.outlets.map (fun o => o.quantity)).sum) := by
  unfold scrubRooms
  rw [List.map_map]
  simp only [Function.comp_def, scrubRoom, scrubOutlet, List.map_map]

/-- C9: the outlet-level `simultaneousFactor` field never influences any
output — two room lists that agree on everything except the
`simultaneousFactor` of their outlets (i.e. whose scrubbed forms are equal)
give identical `calculateSystemDemand` maps and identical engineering
reports: the accumulated per-outlet peak sum is overwritten by total demand
times the table-level factor for every system gas type. -/
theorem simultaneousFactor_noninterference
    (rooms₁ rooms₂ : List RoomGasRequirements)
    (h : scrubRooms rooms₁ = scrubRooms rooms₂) :
    calculateSystemDemand rooms₁ = calculateSystemDemand rooms₂ ∧
    generateEngineeringReport rooms₁ = generateEngineeringReport rooms₂ := by
  have key : ∀ (g : GasType) (st : GasStandards),
      NFPA99_STANDARDS g = some st →
      buildSystem rooms₁ g = buildSystem rooms₂ g := by
    intro g st hst
    rw [← buildSystem_scrub rooms₁ g st hst, h,
      buildSystem_scrub rooms₂ g st hst]
  have hsys : calculateSystemDemand rooms₁ = calculateSystemDemand rooms₂ := by
    simp only [calculateSystemDemand, systemGasTypes, List.map_cons,
      List.map_nil]
    rw [key .oxygen ⟨50, 45, 55, 25, 0.75⟩ rfl,
      key .air ⟨50, 45, 55, 25, 0.75⟩ rfl,
      key .vacuum ⟨-15, -12, -18, 5000, 0.50⟩ rfl,
      key .co2 ⟨50, 45, 55, 25, 0.25⟩ rfl,
      key .n2o ⟨50, 45, 55, 25, 0.25⟩ rfl]
  have hlen : rooms₁.length = rooms₂.length := by
    have h2 := congrArg List.length h
    simpa [scrubRooms] using h2
  have hqty : rooms₁.map
        (fun room => (room.outlets.map (fun o => o.quantity)).sum) =
      rooms₂.map (fun room => (room.outlets.map (fun o => o.quantity)).sum) := by
    rw [← outletQuantitySum_scrub rooms₁, h, outletQuantitySum_scrub rooms₂]
  refine ⟨hsys, ?_⟩
  simp only [generateEngineeringReport]
  rw [hsys, hlen, hqty]

/-- Witness for C9: two single-room facilities identical except for the
outlet's `simultaneousFactor` (0.9 vs 0.1). -/
theorem simultaneousFactor_noninterference_witness :
    calculateSystemDemand [scrubDemoRoomA] =
      calculateSystemDemand [scrubDemoRoomB] ∧
    generateEngineeringReport [scrubDemoRoomA] =
      generateEngineeringReport [scrubDemoRoomB] :=
  simultaneousFactor_noninterference [scrubDemoRoomA] [scrubDemoRoomB] rfl

end MedGas
